import Mathlib

/-!
Shallow embedding of `cvbn_vswitch.py` (CVBN vSwitch control class).

The Python class `vswitch` manages switches, networks, subnets, domains,
GRE/VLAN ports and domain-port bindings that live in a remote resource
store reached through four primitives (`walk`, `get`, `set`, `delete`).
The store is the only state; every method re-derives what it needs from
walk results.

Embedding conventions:
* `Store` collects the walk results of every resource type the methods
  touch.  Walks and gets are total reads of this state; `set`/`delete`
  append to / filter the corresponding list.  The store generates fresh
  ids from a counter (`nextId`).
* Methods that mutate return the result together with the next store
  state.  Methods that can raise in a way a claim observes return
  `Except PyErr` (`cvbnApiFailure` models a raised `CvbnApiFailure`,
  `indexError` an uncaught Python `IndexError`).
* The validation of subnet CIDRs by the remote store (which surfaces as a
  raised `CvbnApiFailure` in `addSubnet`) is modelled by the `badCidrs`
  field: the subnet `set` is rejected exactly for those cidr values.
* The distinction Python makes between the value `None` and the string "None"
  (load-bearing in `addNetwork`) is modelled by `PyStr`.
* In the Python source the class defines `isPortGreDomain` twice: first
  at line 1152 with parameter order `(uuid, domainId, portId)`, then at
  line 1573 with parameter order `(uuid, portId, domainId)`.  The second
  definition shadows the first, so every call site that passes
  `(domainId, portId)` positionally actually queries the swapped pair.
  The embedding keeps the effective (second) definition under the source
  name and reproduces the positional call sites verbatim.
-/

deriving instance DecidableEq for Except

namespace Cvbn

/-- Python string argument that may also be the value `None` (null). -/
inductive PyStr where
  | null : PyStr
  | str : String → PyStr
deriving DecidableEq, Repr

/-- Value of an endpoint key in the GRE-port `set` request: the key may be
absent from the params dict, present as the empty object `{}`, or present
as `{"ip_address": ip}`. -/
inductive EndpointField where
  | omitted : EndpointField
  | emptyObject : EndpointField
  | ipAddress : String → EndpointField
deriving DecidableEq, Repr

/-- Error surfaced by a method: a raised `CvbnApiFailure`, or an uncaught
Python `IndexError` from an unchecked list indexing. -/
inductive PyErr where
  | cvbnApiFailure : PyErr
  | indexError : PyErr
deriving DecidableEq, Repr

/-- One `compute.server` resource: a run instance referencing a switch
definition through `configuration.id`. -/
structure Server where
  id : String
  configId : String
deriving DecidableEq, Repr

/-- One `networking.network` resource (associate network).  The store
maintains the `subnets` reference list as subnets are created/deleted. -/
structure Network where
  id : String
  name : String
  hostInterface : String
  subnets : List String
deriving DecidableEq, Repr

/-- One `networking.subnet` resource. -/
structure Subnet where
  id : String
  networkId : String
  cidr : PyStr
deriving DecidableEq, Repr

/-- One `networking.vswitch.domain` resource. -/
structure Domain where
  id : String
  name : String
  vswitch : Option String
deriving DecidableEq, Repr

/-- One `networking.vswitch.domain.ports` resource: the many-to-many
binding between a domain and a port, tagged with the type tag of the port. -/
structure DomainPortBinding where
  domainId : String
  portTid : String
  portId : String
deriving DecidableEq, Repr

/-- One `networking.port.gre` resource (store-generated fields such as
`mac_address`, never read or written by the client code, are not kept). -/
structure GrePort where
  id : String
  name : String
  localSubnet : String
  localEndpoint : EndpointField
  remoteEndpoint : EndpointField
  checksumPresent : Bool
  seqNumPresent : Bool
deriving DecidableEq, Repr

/-- One `networking.port.raw` resource (VLAN port). -/
structure VlanPort where
  id : String
  name : String
  networkId : String
  vlanIds : List String
deriving DecidableEq, Repr

/-- The resource store state seen through the four primitives.  `switches`
holds `compute.vswitch` rows as (id, name); `connections` the names of the
`connection` resources; `networkingVswitch` the ids returned by a walk of
tid `networking.vswitch` on the running switch.  `badCidrs` models the
store-side validation of the subnet `set` request (cidr values the store
rejects with an error).  `nextId` drives fresh id generation. -/
structure Store where
  switches : List (String × String)
  servers : List Server
  connections : List String
  networkingVswitch : List String
  networks : List Network
  subnets : List Subnet
  domains : List Domain
  domainPorts : List DomainPortBinding
  grePorts : List GrePort
  vlanPorts : List VlanPort
  badCidrs : List PyStr
  nextId : Nat
deriving DecidableEq, Repr

/-- Type tag of GRE port resources. -/
def grePortTid : String := "networking.port.gre"

/-- Type tag of VLAN (raw) port resources. -/
def rawPortTid : String := "networking.port.raw"

/-- Fresh id the store hands out for the next `set` that creates a resource. -/
def freshId (st : Store) : String := "id-" ++ toString st.nextId

/-- Allocate a fresh id and advance the id counter of the store. -/
def allocId (st : Store) : String × Store :=
  (freshId st, { st with nextId := st.nextId + 1 })

/-- Source `isSwitch` (line 171): walk `compute.vswitch`, true iff some
child has the given id. -/
def isSwitch (st : Store) (uuid : String) : Bool :=
  st.switches.any (fun sw => sw.1 == uuid)

/-- Source `getRunId` (line 383): `None` if the switch is not defined,
else the id of the first `compute.server` child whose `configuration.id`
equals the switch id. -/
def getRunId (st : Store) (uuid : String) : Option String :=
  if !(isSwitch st uuid) then none
  else (st.servers.find? (fun sv => sv.configId == uuid)).map (fun sv => sv.id)

/-- Source `isRunning` (line 452): true iff `getRunId` is not `None`. -/
def isRunning (st : Store) (uuid : String) : Bool :=
  (getRunId st uuid).isSome

/-- Source `isConnectedToMux` (line 474): walk `connection` on target "0",
true iff the `name` of some child equals the switch id. -/
def isConnectedToMux (st : Store) (uuid : String) : Bool :=
  st.connections.any (fun nm => nm == uuid)

/-- Source `getNetworkingId` (line 419): `None` if not running, else
`result["children"][0]` of the walk of tid `networking.vswitch` — the
indexing is unchecked, so an empty children list raises an `IndexError`
(not a `CvbnApiFailure`). -/
def getNetworkingId (st : Store) (uuid : String) : Except PyErr (Option String) :=
  if (getRunId st uuid).isNone then .ok none
  else
    match st.networkingVswitch with
    | [] => .error .indexError
    | x :: _ => .ok (some x)

/-- Source `getNetworkId` (line 539): `None` if not running, else first
network child with the given id. -/
def getNetworkId (st : Store) (uuid networkId : String) : Option Network :=
  if (getRunId st uuid).isNone then none
  else st.networks.find? (fun nw => nw.id == networkId)

/-- Source `getSubnetId` (line 791): `None` if not running, else first
subnet child with the given id. -/
def getSubnetId (st : Store) (uuid subnetId : String) : Option Subnet :=
  if (getRunId st uuid).isNone then none
  else st.subnets.find? (fun sb => sb.id == subnetId)

/-- Source `getDomains` (line 908): `None` if not running, else all
`networking.vswitch.domain` children. -/
def getDomains (st : Store) (uuid : String) : Option (List Domain) :=
  if (getRunId st uuid).isNone then none
  else some st.domains

/-- Source `getDomainId` (line 942): `None` if not running, else first
domain child with the given id. -/
def getDomainId (st : Store) (uuid domainId : String) : Option Domain :=
  if (getRunId st uuid).isNone then none
  else st.domains.find? (fun dm => dm.id == domainId)

/-- Source `getPortGreId` (line 1495): `None` if not running, else first
GRE port child with the given id. -/
def getPortGreId (st : Store) (uuid portId : String) : Option GrePort :=
  if (getRunId st uuid).isNone then none
  else st.grePorts.find? (fun p => p.id == portId)

/-- Source `getPortVlanId` (line 1765): `None` if not running, else first
VLAN port child with the given id. -/
def getPortVlanId (st : Store) (uuid portId : String) : Option VlanPort :=
  if (getRunId st uuid).isNone then none
  else st.vlanPorts.find? (fun p => p.id == portId)

/-- Binding-scan predicate shared by the membership scans and the binding
`delete` params: the binding row for domain `domainId` and GRE port
`portId`. -/
def greBindingMatch (domainId portId : String) (b : DomainPortBinding) : Bool :=
  b.domainId == domainId && b.portTid == grePortTid && b.portId == portId

/-- Binding row for domain `domainId` and VLAN port `portId`. -/
def rawBindingMatch (domainId portId : String) (b : DomainPortBinding) : Bool :=
  b.domainId == domainId && b.portTid == rawPortTid && b.portId == portId

/-- Source `isPortGreDomain`, the EFFECTIVE definition (line 1573, which
shadows the earlier one at line 1152): parameter order
`(uuid, portId, domainId)`; only a run check, then a scan of all
`networking.vswitch.domain.ports` children for a GRE binding of that
domain and port. -/
def isPortGreDomain (st : Store) (uuid portId domainId : String) : Bool :=
  if (getRunId st uuid).isNone then false
  else st.domainPorts.any (greBindingMatch domainId portId)

/-- Source `isPortGreDomain`, the SHADOWED first definition (line 1152):
parameter order `(uuid, domainId, portId)` with domain and port existence
checks.  In Python this definition is overridden by the later one and is
never the method that runs; it is kept here only to document the slip. -/
def isPortGreDomainShadowed (st : Store) (uuid domainId portId : String) : Bool :=
  if (getRunId st uuid).isNone then false
  else if (getDomainId st uuid domainId).isNone then false
  else if (getPortGreId st uuid portId).isNone then false
  else st.domainPorts.any (greBindingMatch domainId portId)

/-- Source `isPortVlanDomain` (line 1290): parameter order
`(uuid, domainId, portId)`; run, domain and port existence checks, then a
scan for a raw binding of that domain and port. -/
def isPortVlanDomain (st : Store) (uuid domainId portId : String) : Bool :=
  if (getRunId st uuid).isNone then false
  else if (getDomainId st uuid domainId).isNone then false
  else if (getPortVlanId st uuid portId).isNone then false
  else st.domainPorts.any (rawBindingMatch domainId portId)

/-- Source `isPortGreAnyDomain` (line 1614): false if not running, else
true iff `isPortGreDomain(uuid, portId, domain["id"])` holds for some
domain returned by `getDomains` (this call site passes the arguments in
the order the effective definition expects). -/
def isPortGreAnyDomain (st : Store) (uuid portId : String) : Bool :=
  if (getRunId st uuid).isNone then false
  else ((getDomains st uuid).getD []).any (fun dm => isPortGreDomain st uuid portId dm.id)

/-- Source `addPortGreDomain` (line 1105): run, domain-exists and
port-exists guards; then the guard `self.isPortGreDomain(uuid, domainId,
portId)` — positional arguments into the shadowing definition whose
parameters are `(uuid, portId, domainId)`, so the pair is checked
SWAPPED; then `set` creates the binding resource and True is returned. -/
def addPortGreDomain (st : Store) (uuid domainId portId : String) : Bool × Store :=
  if (getRunId st uuid).isNone then (false, st)
  else if (getDomainId st uuid domainId).isNone then (false, st)
  else if (getPortGreId st uuid portId).isNone then (false, st)
  else if isPortGreDomain st uuid domainId portId then (false, st)
  else (true, { st with domainPorts := st.domainPorts ++ [⟨domainId, grePortTid, portId⟩] })

/-- Source `deletePortGreDomain` (line 1199): run and domain-exists
guards; then `if not self.isPortGreDomain(uuid, domainId, portId)` — again
positional into the swapped signature; then `delete` removes the binding
rows matching the (domain, GRE port) params and True is returned. -/
def deletePortGreDomain (st : Store) (uuid domainId portId : String) : Bool × Store :=
  if (getRunId st uuid).isNone then (false, st)
  else if (getDomainId st uuid domainId).isNone then (false, st)
  else if !(isPortGreDomain st uuid domainId portId) then (false, st)
  else (true, { st with domainPorts := st.domainPorts.filter (fun b => !(greBindingMatch domainId portId b)) })

/-- Source `addPortVlanDomain` (line 1243): run, domain-exists,
port-exists and pair-not-bound guards (the VLAN membership check has a
single, consistent definition), then `set` creates the binding. -/
def addPortVlanDomain (st : Store) (uuid domainId portId : String) : Bool × Store :=
  if (getRunId st uuid).isNone then (false, st)
  else if (getDomainId st uuid domainId).isNone then (false, st)
  else if (getPortVlanId st uuid portId).isNone then (false, st)
  else if isPortVlanDomain st uuid domainId portId then (false, st)
  else (true, { st with domainPorts := st.domainPorts ++ [⟨domainId, rawPortTid, portId⟩] })

/-- Source `deletePortVlanDomain` (line 1337): run, domain-exists and
pair-bound guards, then `delete` removes the binding rows. -/
def deletePortVlanDomain (st : Store) (uuid domainId portId : String) : Bool × Store :=
  if (getRunId st uuid).isNone then (false, st)
  else if (getDomainId st uuid domainId).isNone then (false, st)
  else if !(isPortVlanDomain st uuid domainId portId) then (false, st)
  else (true, { st with domainPorts := st.domainPorts.filter (fun b => !(rawBindingMatch domainId portId b)) })

/-- Source `deletePortGre` (line 1639): run guard, port-exists guard,
then the domain-membership guard `isPortGreAnyDomain` refuses the delete;
otherwise `delete` removes the port and True is returned. -/
def deletePortGre (st : Store) (uuid portId : String) : Bool × Store :=
  if (getRunId st uuid).isNone then (false, st)
  else if (getPortGreId st uuid portId).isNone then (false, st)
  else if isPortGreAnyDomain st uuid portId then (false, st)
  else (true, { st with grePorts := st.grePorts.filter (fun p => !(p.id == portId)) })

/-- Source `deletePortVlan` (line 1844): run and port-exists guards only
(no domain-membership guard, unlike GRE), then the port is deleted. -/
def deletePortVlan (st : Store) (uuid portId : String) : Bool × Store :=
  if (getRunId st uuid).isNone then (false, st)
  else if (getPortVlanId st uuid portId).isNone then (false, st)
  else (true, { st with vlanPorts := st.vlanPorts.filter (fun p => !(p.id == portId)) })

/-- Body of the loop of source `deleteDomainPorts` (lines 1094-1101): for
a binding of the domain, call `deletePortGreDomain` then `deletePortGre`
(for GRE bindings) or `deletePortVlanDomain` then `deletePortVlan` (for
raw bindings), DISCARDING their boolean results; thread only the store. -/
def deleteDomainPortsStep (uuid domainId : String) (acc : Store) (inst : DomainPortBinding) : Store :=
  if inst.domainId == domainId then
    let acc1 :=
      if inst.portTid == grePortTid then
        let accA := (deletePortGreDomain acc uuid domainId inst.portId).2
        (deletePortGre accA uuid inst.portId).2
      else acc
    if inst.portTid == rawPortTid then
      let accB := (deletePortVlanDomain acc1 uuid domainId inst.portId).2
      (deletePortVlan accB uuid inst.portId).2
    else acc1
  else acc

/-- Source `deleteDomainPorts` (line 1060): run and domain-exists guards,
then one walk of the bindings (a snapshot taken before any deletion) and
the per-binding cleanup loop; the loop ignores every cleanup result and
the method then returns True unconditionally. -/
def deleteDomainPorts (st : Store) (uuid domainId : String) : Bool × Store :=
  if (getRunId st uuid).isNone then (false, st)
  else if (getDomainId st uuid domainId).isNone then (false, st)
  else (true, st.domainPorts.foldl (deleteDomainPortsStep uuid domainId) st)

/-- Source `deleteDomain` (line 1020): run and domain-exists guards, then
`deleteDomainPorts`; if that returns falsy the method returns False, else
`delete` removes the domain and True is returned. -/
def deleteDomain (st : Store) (uuid domainId : String) : Bool × Store :=
  if (getRunId st uuid).isNone then (false, st)
  else if (getDomainId st uuid domainId).isNone then (false, st)
  else
    let r := deleteDomainPorts st uuid domainId
    if !r.1 then (false, r.2)
    else (true, { r.2 with domains := r.2.domains.filter (fun dm => !(dm.id == domainId)) })

/-- Source `addDomain` (line 869): `None` if not running; the `vswitch`
param is `getNetworkingId(uuid)`, whose possible `IndexError` propagates
uncaught; then `set` creates the domain and its id is returned. -/
def addDomain (st : Store) (uuid domainName : String) : Except PyErr (Option String) × Store :=
  if (getRunId st uuid).isNone then (.ok none, st)
  else
    match getNetworkingId st uuid with
    | .error e => (.error e, st)
    | .ok vsw =>
      let (did, st1) := allocId st
      (.ok (some did), { st1 with domains := st1.domains ++ [⟨did, domainName, vsw⟩] })

/-- Source `addSubnet` (line 716): `None` if not running or the target
network does not exist; the `set` of the subnet is rejected by the store
(raised `CvbnApiFailure`) exactly for the cidr values in `badCidrs`;
otherwise the subnet is created, the store also records the new subnet id
in the `subnets` list of the owning network, and the subnet id is returned. -/
def addSubnet (st : Store) (uuid networkId : String) (ipv4Subnet : PyStr) :
    Except PyErr (Option String) × Store :=
  if (getRunId st uuid).isNone then (.ok none, st)
  else if (getNetworkId st uuid networkId).isNone then (.ok none, st)
  else if st.badCidrs.contains ipv4Subnet then (.error .cvbnApiFailure, st)
  else
    let (sid, st1) := allocId st
    (.ok (some sid),
      { st1 with
        subnets := st1.subnets ++ [⟨sid, networkId, ipv4Subnet⟩]
        networks := st1.networks.map (fun nw =>
          if nw.id == networkId then { nw with subnets := nw.subnets ++ [sid] } else nw) })

/-- Source `deleteSubnet` (line 830): run and subnet-exists guards, then
the subnet is deleted (the store also drops the reference from the owning
`subnets` list of the owning network) and True is returned. -/
def deleteSubnet (st : Store) (uuid subnetId : String) : Bool × Store :=
  if (getRunId st uuid).isNone then (false, st)
  else if (getSubnetId st uuid subnetId).isNone then (false, st)
  else (true,
    { st with
      subnets := st.subnets.filter (fun sb => !(sb.id == subnetId))
      networks := st.networks.map (fun nw =>
        { nw with subnets := nw.subnets.filter (fun sid => !(sid == subnetId)) }) })

/-- Loop of source `deleteNetwork` (lines 698-700): delete each subnet in
the reference list of the network, returning False on the first failure (the
subnets already deleted stay deleted). -/
def deleteSubnetsLoop (uuid : String) : List String → Store → Bool × Store
  | [], acc => (true, acc)
  | sid :: rest, acc =>
    let r := deleteSubnet acc uuid sid
    if !r.1 then (false, r.2)
    else deleteSubnetsLoop uuid rest r.2

/-- Source `deleteNetwork` (line 670): run and network-exists guards,
then the subnet loop, then `delete` removes the network. -/
def deleteNetwork (st : Store) (uuid networkId : String) : Bool × Store :=
  if (getRunId st uuid).isNone then (false, st)
  else
    match getNetworkId st uuid networkId with
    | none => (false, st)
    | some nw =>
      let r := deleteSubnetsLoop uuid nw.subnets st
      if !r.1 then (false, r.2)
      else (true, { r.2 with networks := r.2.networks.filter (fun n => !(n.id == networkId)) })

/-- Source `addNetwork` (line 619): `None` if not running; `set` creates
the network; then, unless `ipv4Subnet` equals the LITERAL STRING "None",
`addSubnet` is attempted — if it returns a falsy value the network is
deleted again and `None` returned, while a `CvbnApiFailure` raised inside
`addSubnet` propagates out (skipping the rollback); finally the network
id is returned. -/
def addNetwork (st : Store) (uuid networkName hostInterface : String) (ipv4Subnet : PyStr) :
    Except PyErr (Option String) × Store :=
  if (getRunId st uuid).isNone then (.ok none, st)
  else
    let (networkId, st1) := allocId st
    let st2 := { st1 with networks := st1.networks ++ [⟨networkId, networkName, hostInterface, []⟩] }
    if ipv4Subnet == PyStr.str "None" then (.ok (some networkId), st2)
    else
      match addSubnet st2 uuid networkId ipv4Subnet with
      | (.error e, st3) => (.error e, st3)
      | (.ok none, st3) =>
        let r := deleteNetwork st3 uuid networkId
        (.ok none, r.2)
      | (.ok (some _), st3) => (.ok (some networkId), st3)

/-- Params dict built by source `addPortGre` (lines 1435-1448): when
`local_ip` (resp. `remote_ip`) is the value `None`, the code assigns the
EMPTY OBJECT `{}` to the `local_endpoint` (resp. `remote_endpoint`) key —
the key is present in the request, not omitted. -/
structure GreSetRequest where
  tid : String
  name : String
  localSubnet : String
  localEndpoint : EndpointField
  remoteEndpoint : EndpointField
  checksumPresent : Bool
  seqNumPresent : Bool
deriving DecidableEq, Repr

/-- Builds the `set` request of source `addPortGre` exactly as the code
does (lines 1435-1448). -/
def addPortGreParams (subnetId portName : String) (localIp remoteIp : Option String)
    (checksum seqnum : Bool) : GreSetRequest :=
  { tid := grePortTid
    name := portName
    localSubnet := subnetId
    localEndpoint :=
      match localIp with
      | none => EndpointField.emptyObject
      | some ip => EndpointField.ipAddress ip
    remoteEndpoint :=
      match remoteIp with
      | none => EndpointField.emptyObject
      | some ip => EndpointField.ipAddress ip
    checksumPresent := checksum
    seqNumPresent := seqnum }

/-- Source `addPortGre` (line 1383): `None` if not running or the subnet
does not exist; then `set` with the request of `addPortGreParams` creates
the port and its id is returned.  (The IP-in-subnet and
endpoint-uniqueness validation, which would surface as a raised
`CvbnApiFailure`, is not exercised by any claim and is not modelled.) -/
def addPortGre (st : Store) (uuid subnetId portName : String)
    (localIp remoteIp : Option String) (checksum seqnum : Bool) : Option String × Store :=
  if (getRunId st uuid).isNone then (none, st)
  else if (getSubnetId st uuid subnetId).isNone then (none, st)
  else
    let req := addPortGreParams subnetId portName localIp remoteIp checksum seqnum
    let (pid, st1) := allocId st
    (some pid,
      { st1 with grePorts := st1.grePorts ++
          [⟨pid, req.name, req.localSubnet, req.localEndpoint, req.remoteEndpoint,
            req.checksumPresent, req.seqNumPresent⟩] })

/-- The readiness wait of source `startSwitch` (lines 321-330), written
as structural recursion on the remaining poll budget.  `conn k` is the
result of the k-th `isConnectedToMux` call (the `connection` resources
are written by the external switch agent while the loop sleeps, so the
observations are indexed by check number).  `pollFrom conn k r` runs the
loop from check number `k` with `r` more non-final checks allowed; the
source loop breaks after a failed check once `counter > maxWait`, i.e.
checks happen at numbers `k = 0 .. maxWait`.  Returns (connected, total
number of checks performed). -/
def pollFrom (conn : Nat → Bool) : Nat → Nat → Bool × Nat
  | k, 0 => (conn k, k + 1)
  | k, r + 1 => if conn k then (true, k + 1) else pollFrom conn (k + 1) r

/-- The full readiness wait of `startSwitch` with budget `maxWait`. -/
def startSwitchPoll (conn : Nat → Bool) (maxWait : Nat) : Bool × Nat :=
  pollFrom conn 0 maxWait

/-- Source `startSwitch` (line 278): False if the switch is not defined
or is already running (both before any `set`); else `set` creates the
`compute.server` run instance, the readiness wait polls `conn`, a timeout
returns False WITHOUT deleting the created instance, and on success one
idempotent `set` of tid `networking.vswitch` is performed (modelled as
creating the `networking.vswitch` object if none exists yet) before True
is returned. -/
def startSwitch (st : Store) (uuid : String) (conn : Nat → Bool) (maxWait : Nat) : Bool × Store :=
  if !(isSwitch st uuid) then (false, st)
  else if isRunning st uuid then (false, st)
  else
    let (runId, st1) := allocId st
    let st2 := { st1 with servers := st1.servers ++ [⟨runId, uuid⟩] }
    let res := startSwitchPoll conn maxWait
    if !res.1 then (false, st2)
    else
      let st3 :=
        if st2.networkingVswitch.isEmpty then
          let (nid, st2a) := allocId st2
          { st2a with networkingVswitch := [nid] }
        else st2
      (true, st3)

/-- Source `stopSwitch` (line 348): False if there is no run instance,
else the run instance is deleted and True returned. -/
def stopSwitch (st : Store) (uuid : String) : Bool × Store :=
  match getRunId st uuid with
  | none => (false, st)
  | some runId => (true, { st with servers := st.servers.filter (fun sv => !(sv.id == runId)) })

/-! Concrete stores used to evaluate the code on failing inputs. -/

/-- Running switch "sw" with domain "dom1", GRE port "gre1" and the
binding of that port to that domain. -/
def boundPortState : Store :=
  { switches := [("sw", "demo")]
    servers := [⟨"run1", "sw"⟩]
    connections := ["sw"]
    networkingVswitch := ["nv1"]
    networks := []
    subnets := []
    domains := [⟨"dom1", "user1", some "nv1"⟩]
    domainPorts := [⟨"dom1", grePortTid, "gre1"⟩]
    grePorts := [⟨"gre1", "gre10", "sub1", .emptyObject, .emptyObject, false, false⟩]
    vlanPorts := []
    badCidrs := []
    nextId := 0 }

/-- Running switch whose store rejects the cidr "10.0.0.0/24" in the
subnet `set` request. -/
def badCidrState : Store :=
  { switches := [("sw", "demo")]
    servers := [⟨"run1", "sw"⟩]
    connections := ["sw"]
    networkingVswitch := ["nv1"]
    networks := []
    subnets := []
    domains := []
    domainPorts := []
    grePorts := []
    vlanPorts := []
    badCidrs := [PyStr.str "10.0.0.0/24"]
    nextId := 0 }

/-- Running switch with domain "dom1" and GRE port "gre1", the port not
bound to any domain. -/
def freePortState : Store :=
  { boundPortState with domainPorts := [] }

/-- Running switch with domain "d" and GRE port "p", no bindings. -/
def pairAddState : Store :=
  { switches := [("sw", "demo")]
    servers := [⟨"run1", "sw"⟩]
    connections := ["sw"]
    networkingVswitch := ["nv1"]
    networks := []
    subnets := []
    domains := [⟨"d", "user1", some "nv1"⟩]
    domainPorts := []
    grePorts := [⟨"p", "gre10", "sub1", .emptyObject, .emptyObject, false, false⟩]
    vlanPorts := []
    badCidrs := []
    nextId := 0 }

/-- Running switch with domain "d" and GRE port "p" on which
`deletePortGreDomain("sw", "d", "p")` succeeds: the binding of the pair
is present, and so is the swapped row its guard actually looks for. -/
def pairDelState : Store :=
  { pairAddState with
    domainPorts := [⟨"p", grePortTid, "d"⟩, ⟨"d", grePortTid, "p"⟩] }

/-- Running switch whose walk of tid `networking.vswitch` returns an
empty children list. -/
def emptyNetworkingState : Store :=
  { boundPortState with networkingVswitch := [] }

/-! Helper lemmas. -/

/-- `getRunId` reads only the `switches` and `servers` components. -/
theorem getRunId_congr {st st' : Store} (hsw : st'.switches = st.switches)
    (hsv : st'.servers = st.servers) (uuid : String) :
    getRunId st' uuid = getRunId st uuid := by
  unfold getRunId isSwitch
  rw [hsw, hsv]

/-- A running switch has a non-`None` run id. -/
theorem isNone_eq_false_of_isRunning {st : Store} {uuid : String}
    (h : isRunning st uuid = true) : (getRunId st uuid).isNone = false := by
  unfold isRunning at h
  cases hg : getRunId st uuid <;> simp [hg] at h ⊢

/-- Filtering out everything the predicate accepts leaves nothing it
accepts. -/
theorem any_filter_not_self {α : Type} (l : List α) (pred : α → Bool) :
    (l.filter (fun b => !(pred b))).any pred = false := by
  induction l with
  | nil => rfl
  | cons x xs ih =>
    by_cases hx : pred x = true
    · simp [List.filter_cons, hx, ih]
    · simp only [Bool.not_eq_true] at hx
      simp [List.filter_cons, hx, ih]

/-- The readiness loop, when no check ever observes a connection,
performs one check per remaining budget unit plus the final one. -/
theorem pollFrom_never_connected (conn : Nat → Bool) (hconn : ∀ k, conn k = false) :
    ∀ r k, pollFrom conn k r = (false, k + r + 1) := by
  intro r
  induction r with
  | zero => intro k; simp [pollFrom, hconn k]
  | succ n ih =>
    intro k
    have := ih (k + 1)
    simp only [pollFrom, hconn k, Bool.false_eq_true, if_false, this, Prod.mk.injEq,
      true_and]
    omega

/-- The readiness loop stops at the first check that observes a
connection, provided it happens within the budget. -/
theorem pollFrom_first_connected (conn : Nat → Bool) :
    ∀ r k k0, k ≤ k0 → k0 ≤ k + r → conn k0 = true →
      (∀ j, k ≤ j → j < k0 → conn j = false) →
      pollFrom conn k r = (true, k0 + 1) := by
  intro r
  induction r with
  | zero =>
    intro k k0 h1 h2 h3 _
    have hk : k0 = k := by omega
    subst hk
    simp [pollFrom, h3]
  | succ n ih =>
    intro k k0 h1 h2 h3 h4
    by_cases hk : k = k0
    · subst hk
      simp [pollFrom, h3]
    · have hkk : k < k0 := lt_of_le_of_ne h1 hk
      have hck : conn k = false := h4 k le_rfl hkk
      simp only [pollFrom, hck, Bool.false_eq_true, if_false]
      exact ih (k + 1) k0 (by omega) (by omega) h3 (fun j hj1 hj2 => h4 j (by omega) hj2)

/-- Membership scan of an updated `domainPorts` list (the other store
components are untouched by binding mutations). -/
theorem isPortGreDomain_set_domainPorts (st : Store) (l : List DomainPortBinding)
    (uuid portId domainId : String) :
    isPortGreDomain { st with domainPorts := l } uuid portId domainId
      = if (getRunId st uuid).isNone then false
        else l.any (greBindingMatch domainId portId) := rfl

/-- Appending an element the predicate accepts makes `find?` succeed. -/
theorem find?_append_singleton_isNone {α : Type} (l : List α) (x : α) (p : α → Bool)
    (hx : p x = true) : ((l ++ [x]).find? p).isNone = false := by
  induction l with
  | nil => simp [List.find?, hx]
  | cons y ys ih =>
    by_cases hy : p y = true
    · simp [List.find?, hy]
    · simp only [Bool.not_eq_true] at hy
      simp only [List.cons_append, List.find?, hy]
      exact ih

/-! Claim theorems. -/

/-- C1: evaluation of the code at a failing input.  On the running switch
`boundPortState` with domain "dom1" and GRE port "gre1" bound to it,
`deleteDomain` returns True and removes the domain, yet the binding row
and the GRE port are both left in the store, because the binding-cleanup
steps `deletePortGreDomain` and `deletePortGre` both return False (their
failures are discarded by `deleteDomainPorts`, which returns True
unconditionally).  This refutes the claim that every binding of the
domain is removed (with its GRE port) before the domain is deleted and
that a cleanup failure aborts the delete with a raised error. -/
theorem deleteDomain_ignores_cleanup_failure :
    (deleteDomain boundPortState "sw" "dom1").1 = true ∧
    (deleteDomain boundPortState "sw" "dom1").2.domains = [] ∧
    (deleteDomain boundPortState "sw" "dom1").2.domainPorts
      = [⟨"dom1", grePortTid, "gre1"⟩] ∧
    (deleteDomain boundPortState "sw" "dom1").2.grePorts = boundPortState.grePorts ∧
    (deletePortGreDomain boundPortState "sw" "dom1" "gre1").1 = false ∧
    (deletePortGre boundPortState "sw" "gre1").1 = false := by
  decide

/-- C3: evaluation of the code at a failing input.  On `boundPortState`
the pair (domain "dom1", GRE port "gre1") is already bound (first
conjunct, stated through the effective membership predicate), yet
`addPortGreDomain` returns True and creates a second identical binding
row: its duplicate guard passes `(domainId, portId)` positionally into
the shadowing `isPortGreDomain` definition whose parameters are
`(portId, domainId)`, so it checks the swapped pair. -/
theorem addPortGreDomain_duplicates_binding :
    isPortGreDomain boundPortState "sw" "gre1" "dom1" = true ∧
    (addPortGreDomain boundPortState "sw" "dom1" "gre1").1 = true ∧
    (addPortGreDomain boundPortState "sw" "dom1" "gre1").2.domainPorts
      = [⟨"dom1", grePortTid, "gre1"⟩, ⟨"dom1", grePortTid, "gre1"⟩] := by
  decide

/-- C6: evaluation of the code at a failing input.  On the running switch
`badCidrState`, whose store rejects the subnet `set` for cidr
"10.0.0.0/24", `addNetwork` with that CIDR raises `CvbnApiFailure`
(it does not return `None`) and the network "n" created by the call is
left in the store: the store-level failure of `addSubnet` propagates as
an exception, bypassing the rollback branch, which only triggers when
`addSubnet` returns a falsy value. -/
theorem addNetwork_subnet_failure_keeps_network :
    (addNetwork badCidrState "sw" "n" "eth0" (PyStr.str "10.0.0.0/24")).1
      = Except.error PyErr.cvbnApiFailure ∧
    ((addNetwork badCidrState "sw" "n" "eth0" (PyStr.str "10.0.0.0/24")).2.networks.any
      (fun nw => nw.name == "n")) = true := by
  decide

/-- C7 counterexample: in the `set` request built by `addPortGre` for a
call in which `local_ip` and `remote_ip` are not supplied, the
`local_endpoint` and `remote_endpoint` keys are NOT omitted: each is
present with the empty object as its value. -/
theorem addPortGre_params_endpoint_present :
    (addPortGreParams "sub1" "gre10" none none false false).localEndpoint
      = EndpointField.emptyObject ∧
    (addPortGreParams "sub1" "gre10" none none false false).remoteEndpoint
      = EndpointField.emptyObject ∧
    (addPortGreParams "sub1" "gre10" none none false false).localEndpoint
      ≠ EndpointField.omitted ∧
    (addPortGreParams "sub1" "gre10" none none false false).remoteEndpoint
      ≠ EndpointField.omitted := by
  decide

/-- C7 amended: for every `addPortGre` call, the `local_endpoint`
(resp. `remote_endpoint`) field of the `set` request is always present —
as the empty object `{}` when the corresponding ip is not supplied, and
as `{"ip_address": ip}` when it is; it is never omitted and never an
explicit null (no null value exists for `EndpointField`). -/
theorem addPortGre_params_endpoint_shape (subnetId portName : String)
    (localIp remoteIp : Option String) (checksum seqnum : Bool) :
    (localIp = none →
      (addPortGreParams subnetId portName localIp remoteIp checksum seqnum).localEndpoint
        = EndpointField.emptyObject) ∧
    (∀ ip, localIp = some ip →
      (addPortGreParams subnetId portName localIp remoteIp checksum seqnum).localEndpoint
        = EndpointField.ipAddress ip) ∧
    (remoteIp = none →
      (addPortGreParams subnetId portName localIp remoteIp checksum seqnum).remoteEndpoint
        = EndpointField.emptyObject) ∧
    (∀ ip, remoteIp = some ip →
      (addPortGreParams subnetId portName localIp remoteIp checksum seqnum).remoteEndpoint
        = EndpointField.ipAddress ip) ∧
    (addPortGreParams subnetId portName localIp remoteIp checksum seqnum).localEndpoint
      ≠ EndpointField.omitted ∧
    (addPortGreParams subnetId portName localIp remoteIp checksum seqnum).remoteEndpoint
      ≠ EndpointField.omitted := by
  cases localIp <;> cases remoteIp <;> simp [addPortGreParams]

/-- C7 amended, witness: the endpoint fields of a concrete request. -/
theorem addPortGre_params_endpoint_shape_witness :
    (addPortGreParams "sub1" "gre10" (some "192.168.30.10") none false false).localEndpoint
      = EndpointField.ipAddress "192.168.30.10" ∧
    (addPortGreParams "sub1" "gre10" (some "192.168.30.10") none false false).remoteEndpoint
      = EndpointField.emptyObject :=
  ⟨(addPortGre_params_endpoint_shape "sub1" "gre10" (some "192.168.30.10") none false
      false).2.1 "192.168.30.10" rfl,
   (addPortGre_params_endpoint_shape "sub1" "gre10" (some "192.168.30.10") none false
      false).2.2.1 rfl⟩

/-- C8: starting a switch that is already running returns False with the
store unchanged — the early `isRunning` guard returns before any `set`,
so no second run instance referencing the switch definition is created. -/
theorem startSwitch_already_running_noop (st : Store) (uuid : String)
    (conn : Nat → Bool) (maxWait : Nat) (h : isRunning st uuid = true) :
    startSwitch st uuid conn maxWait = (false, st) := by
  have hsw : isSwitch st uuid = true := by
    by_contra hc
    simp only [Bool.not_eq_true] at hc
    have hn : getRunId st uuid = none := by
      unfold getRunId
      simp [hc]
    simp [isRunning, hn] at h
  simp [startSwitch, hsw, h]

/-- C8 witness: starting the already-running switch of `boundPortState`. -/
theorem startSwitch_already_running_noop_witness :
    startSwitch boundPortState "sw" (fun _ => false) 10 = (false, boundPortState) :=
  startSwitch_already_running_noop boundPortState "sw" (fun _ => false) 10 (by decide)

/-- C9: for a switch with a run instance whose walk of tid
`networking.vswitch` returns an empty children list, `getNetworkingId`
fails with an uncaught `IndexError` (not `None`, not `CvbnApiFailure`),
and `addDomain`, which calls it unconditionally for a running switch,
fails the same way. -/
theorem getNetworkingId_empty_children_index_error (st : Store) (uuid domainName : String)
    (hrun : isRunning st uuid = true) (hempty : st.networkingVswitch = []) :
    getNetworkingId st uuid = .error .indexError ∧
    addDomain st uuid domainName = (.error .indexError, st) := by
  have h1 := isNone_eq_false_of_isRunning hrun
  have hg : getNetworkingId st uuid = .error .indexError := by
    simp [getNetworkingId, h1, hempty]
  exact ⟨hg, by simp [addDomain, h1, hg]⟩

/-- C9 witness: `emptyNetworkingState` has a run instance and no
`networking.vswitch` children. -/
theorem getNetworkingId_empty_children_index_error_witness :
    getNetworkingId emptyNetworkingState "sw" = .error .indexError ∧
    addDomain emptyNetworkingState "sw" "user1" = (.error .indexError, emptyNetworkingState) :=
  getNetworkingId_empty_children_index_error emptyNetworkingState "sw" "user1"
    (by decide) (by decide)

/-- C2: on a running switch with existing domain `d` and existing GRE
port `p`, a successful `addPortGreDomain` followed by the membership
query for port `p` in domain `d` (the effective `isPortGreDomain` takes
`(uuid, portId, domainId)`) returns True, and a successful
`deletePortGreDomain` followed by the same query returns False. -/
theorem portGreDomain_add_delete_membership (st st₁ st₂ : Store) (uuid d p : String)
    (hrun : isRunning st uuid = true)
    (hdom : (getDomainId st uuid d).isSome = true)
    (hport : (getPortGreId st uuid p).isSome = true) :
    (addPortGreDomain st uuid d p = (true, st₁) → isPortGreDomain st₁ uuid p d = true) ∧
    (deletePortGreDomain st uuid d p = (true, st₂) → isPortGreDomain st₂ uuid p d = false) := by
  have h1 := isNone_eq_false_of_isRunning hrun
  have h2 : (getDomainId st uuid d).isNone = false := by
    cases hg : getDomainId st uuid d <;> simp [hg] at hdom ⊢
  have h3 : (getPortGreId st uuid p).isNone = false := by
    cases hg : getPortGreId st uuid p <;> simp [hg] at hport ⊢
  constructor
  · intro h
    by_cases hguard : isPortGreDomain st uuid d p = true
    · simp [addPortGreDomain, h1, h2, h3, hguard] at h
    · simp only [Bool.not_eq_true] at hguard
      simp only [addPortGreDomain, h1, h2, h3, hguard, Bool.false_eq_true, if_false] at h
      rw [Prod.mk.injEq] at h
      obtain ⟨-, hst⟩ := h
      subst hst
      rw [isPortGreDomain_set_domainPorts, h1]
      simp [greBindingMatch]
  · intro h
    by_cases hguard : isPortGreDomain st uuid d p = true
    · simp only [deletePortGreDomain, h1, h2, hguard, Bool.not_true, Bool.false_eq_true,
        if_false] at h
      rw [Prod.mk.injEq] at h
      obtain ⟨-, hst⟩ := h
      subst hst
      rw [isPortGreDomain_set_domainPorts, h1]
      simp only [Bool.false_eq_true, if_false]
      exact any_filter_not_self _ _
    · simp only [Bool.not_eq_true] at hguard
      simp [deletePortGreDomain, h1, h2, hguard] at h

/-- C2 witness: both halves at concrete stores on which the calls
succeed. -/
theorem portGreDomain_add_delete_membership_witness :
    isPortGreDomain (addPortGreDomain pairAddState "sw" "d" "p").2 "sw" "p" "d" = true ∧
    isPortGreDomain (deletePortGreDomain pairDelState "sw" "d" "p").2 "sw" "p" "d" = false :=
  ⟨(portGreDomain_add_delete_membership pairAddState
      (addPortGreDomain pairAddState "sw" "d" "p").2 pairAddState "sw" "d" "p"
      (by decide) (by decide) (by decide)).1 (by decide),
   (portGreDomain_add_delete_membership pairDelState pairDelState
      (deletePortGreDomain pairDelState "sw" "d" "p").2 "sw" "d" "p"
      (by decide) (by decide) (by decide)).2 (by decide)⟩

/-- C4: the readiness wait of `startSwitch`.  If no check ever observes
the connection resource, exactly `maxWait + 1` checks are performed and
the wait fails; if the first check observing it is check `k0` (0-based)
within the budget, the wait succeeds right there, having performed
`k0 + 1` checks; and a defined, non-running switch whose connection
never appears makes `startSwitch` itself return False. -/
theorem startSwitch_readiness_wait_checks (st : Store) (uuid : String)
    (conn : Nat → Bool) (maxWait : Nat) :
    ((∀ k, conn k = false) → startSwitchPoll conn maxWait = (false, maxWait + 1)) ∧
    (∀ k0, k0 ≤ maxWait → conn k0 = true → (∀ j, j < k0 → conn j = false) →
      startSwitchPoll conn maxWait = (true, k0 + 1)) ∧
    (isSwitch st uuid = true → isRunning st uuid = false → (∀ k, conn k = false) →
      (startSwitch st uuid conn maxWait).1 = false) := by
  refine ⟨fun hc => ?_, fun k0 hk0 hc0 hprev => ?_, fun hsw hnr hc => ?_⟩
  · have := pollFrom_never_connected conn hc maxWait 0
    simpa [startSwitchPoll] using this
  · have := pollFrom_first_connected conn maxWait 0 k0 (Nat.zero_le _) (by omega) hc0
      (fun j _ hj2 => hprev j hj2)
    simpa [startSwitchPoll] using this
  · have hpoll : startSwitchPoll conn maxWait = (false, maxWait + 1) := by
      have := pollFrom_never_connected conn hc maxWait 0
      simpa [startSwitchPoll] using this
    simp [startSwitch, hsw, hnr, allocId, hpoll]

/-- C4 witness: a never-connecting oracle with budget 2 performs 3
checks; an oracle first connecting at check 1 succeeds after 2 checks. -/
theorem startSwitch_readiness_wait_checks_witness :
    startSwitchPoll (fun _ => false) 2 = (false, 3) ∧
    startSwitchPoll (fun k => k == 1) 5 = (true, 2) :=
  ⟨(startSwitch_readiness_wait_checks boundPortState "sw" (fun _ => false) 2).1
      (fun _ => rfl),
   (startSwitch_readiness_wait_checks boundPortState "sw" (fun k => k == 1) 5).2.1 1
      (by omega) (by decide) (fun j hj => by
        have : j = 0 := by omega
        subst this
        rfl)⟩

/-- C5: on a running switch with existing GRE port `pid`,
`deletePortGre` returns False with the store unchanged whenever the port
is bound to some existing domain, and returns True and removes the port
whenever the port has no GRE binding at all. -/
theorem deletePortGre_domain_guard (st : Store) (uuid pid : String)
    (hrun : isRunning st uuid = true)
    (hport : (getPortGreId st uuid pid).isSome = true) :
    ((∃ dm, dm ∈ st.domains ∧ DomainPortBinding.mk dm.id grePortTid pid ∈ st.domainPorts) →
      deletePortGre st uuid pid = (false, st)) ∧
    ((∀ b, b ∈ st.domainPorts → ¬(b.portTid = grePortTid ∧ b.portId = pid)) →
      (deletePortGre st uuid pid).1 = true ∧
      ∀ q, q ∈ (deletePortGre st uuid pid).2.grePorts → ¬(q.id = pid)) := by
  have h1 := isNone_eq_false_of_isRunning hrun
  have h3 : (getPortGreId st uuid pid).isNone = false := by
    cases hg : getPortGreId st uuid pid <;> simp [hg] at hport ⊢
  have hdoms : getDomains st uuid = some st.domains := by simp [getDomains, h1]
  constructor
  · rintro ⟨dm, hdm, hb⟩
    have hany : isPortGreAnyDomain st uuid pid = true := by
      unfold isPortGreAnyDomain
      simp only [h1, Bool.false_eq_true, if_false, hdoms, Option.getD_some, List.any_eq_true]
      refine ⟨dm, hdm, ?_⟩
      unfold isPortGreDomain
      simp only [h1, Bool.false_eq_true, if_false, List.any_eq_true]
      exact ⟨DomainPortBinding.mk dm.id grePortTid pid, hb, by simp [greBindingMatch]⟩
    simp [deletePortGre, h1, h3, hany]
  · intro hnb
    have hany : isPortGreAnyDomain st uuid pid = false := by
      unfold isPortGreAnyDomain
      simp only [h1, Bool.false_eq_true, if_false, hdoms, Option.getD_some,
        List.any_eq_false, Bool.not_eq_true]
      intro dm _
      unfold isPortGreDomain
      simp only [h1, Bool.false_eq_true, if_false, List.any_eq_false, Bool.not_eq_true]
      intro b hb
      have hcon := hnb b hb
      by_cases ht : b.portTid = grePortTid
      · have hp : b.portId ≠ pid := fun hpid => hcon ⟨ht, hpid⟩
        have hpb : (b.portId == pid) = false := beq_eq_false_iff_ne.mpr hp
        simp [greBindingMatch, hpb]
      · have htb : (b.portTid == grePortTid) = false := beq_eq_false_iff_ne.mpr ht
        simp [greBindingMatch, htb]
    simp only [deletePortGre, h1, h3, hany, Bool.false_eq_true, if_false]
    refine ⟨by trivial, fun q hq => ?_⟩
    simp only [List.mem_filter, Bool.not_eq_eq_eq_not, Bool.not_true, beq_eq_false_iff_ne,
      ne_eq] at hq
    exact hq.2

/-- C5 witness: the bound port of `boundPortState` is refused; the same
port with zero bindings in `freePortState` is deleted. -/
theorem deletePortGre_domain_guard_witness :
    deletePortGre boundPortState "sw" "gre1" = (false, boundPortState) ∧
    (deletePortGre freePortState "sw" "gre1").1 = true :=
  ⟨(deletePortGre_domain_guard boundPortState "sw" "gre1" (by decide) (by decide)).1
      ⟨⟨"dom1", "user1", some "nv1"⟩, by decide, by decide⟩,
   ((deletePortGre_domain_guard freePortState "sw" "gre1" (by decide) (by decide)).2
      (by decide)).1⟩

/-- Value of `addSubnet` when the switch runs, the target network is
found and the store rejects the cidr. -/
theorem addSubnet_rejected (st : Store) (uuid networkId : String) (v : PyStr)
    (h1 : (getRunId st uuid).isNone = false)
    (hnet : (st.networks.find? (fun nw => nw.id == networkId)).isNone = false)
    (hbad : st.badCidrs.contains v = true) :
    addSubnet st uuid networkId v = (.error .cvbnApiFailure, st) := by
  unfold addSubnet getNetworkId
  rw [h1]
  simp only [Bool.false_eq_true, if_false]
  rw [hnet, hbad]
  simp

/-- Value of `addSubnet` when the switch runs, the target network is
found and the store accepts the cidr. -/
theorem addSubnet_created (st : Store) (uuid networkId : String) (v : PyStr)
    (h1 : (getRunId st uuid).isNone = false)
    (hnet : (st.networks.find? (fun nw => nw.id == networkId)).isNone = false)
    (hbad : st.badCidrs.contains v = false) :
    addSubnet st uuid networkId v =
      (.ok (some (freshId st)),
        { st with
          nextId := st.nextId + 1
          subnets := st.subnets ++ [⟨freshId st, networkId, v⟩]
          networks := st.networks.map (fun nw =>
            if nw.id == networkId then { nw with subnets := nw.subnets ++ [freshId st] }
            else nw) }) := by
  unfold addSubnet getNetworkId
  rw [h1]
  simp only [Bool.false_eq_true, if_false]
  rw [hnet, hbad]
  simp [allocId]

/-- Value of `addNetwork` for a running switch once the cidr is not the
literal string "None": the network is created and `addSubnet` is
attempted on it with that cidr. -/
theorem addNetwork_unfold (st : Store) (uuid networkName hostInterface : String) (v : PyStr)
    (h1 : (getRunId st uuid).isNone = false) (hv : (v == PyStr.str "None") = false) :
    addNetwork st uuid networkName hostInterface v =
      (match addSubnet
          { st with
            nextId := st.nextId + 1
            networks := st.networks ++ [⟨freshId st, networkName, hostInterface, []⟩] }
          uuid (freshId st) v with
       | (.error e, st3) => (.error e, st3)
       | (.ok none, st3) => (.ok none, (deleteNetwork st3 uuid (freshId st)).2)
       | (.ok (some _), st3) => (.ok (some (freshId st)), st3)) := by
  unfold addNetwork
  rw [h1, hv]
  simp [allocId]

/-- C10: `addNetwork` treats only the LITERAL STRING "None" as "no CIDR
supplied": with that value no subnet is created and the network id is
returned, while any other value — including the null value `None` —
flows into `addSubnet` as the cidr of the subnet `set` request (the
request errors if the store rejects that cidr, and otherwise a subnet
carrying exactly that cidr value is created). -/
theorem addNetwork_cidr_literal_none (st : Store)
    (uuid networkName hostInterface : String) (v : PyStr)
    (hrun : isRunning st uuid = true) :
    (v = PyStr.str "None" →
      (addNetwork st uuid networkName hostInterface v).1 = .ok (some (freshId st)) ∧
      (addNetwork st uuid networkName hostInterface v).2.subnets = st.subnets) ∧
    (v ≠ PyStr.str "None" →
      (st.badCidrs.contains v = true →
        (addNetwork st uuid networkName hostInterface v).1 = .error .cvbnApiFailure) ∧
      (st.badCidrs.contains v = false →
        ∃ sb, sb ∈ (addNetwork st uuid networkName hostInterface v).2.subnets ∧
          sb.cidr = v)) := by
  have h1 := isNone_eq_false_of_isRunning hrun
  constructor
  · rintro rfl
    constructor <;> simp [addNetwork, h1, allocId]
  · intro hv
    have hbeq : (v == PyStr.str "None") = false := beq_eq_false_iff_ne.mpr hv
    rw [addNetwork_unfold st uuid networkName hostInterface v h1 hbeq]
    have hh1 : (getRunId
        { st with
          nextId := st.nextId + 1
          networks := st.networks ++ [⟨freshId st, networkName, hostInterface, []⟩] }
        uuid).isNone = false := h1
    have hnet : (({ st with
          nextId := st.nextId + 1
          networks := st.networks ++ [⟨freshId st, networkName, hostInterface, []⟩] } :
            Store).networks.find? (fun nw => nw.id == freshId st)).isNone = false :=
      find?_append_singleton_isNone st.networks _ _ (by simp)
    refine ⟨fun hbad => ?_, fun hbad => ?_⟩
    · have hbadx : ({ st with
          nextId := st.nextId + 1
          networks := st.networks ++ [⟨freshId st, networkName, hostInterface, []⟩] } :
            Store).badCidrs.contains v = true := hbad
      rw [addSubnet_rejected _ uuid (freshId st) v hh1 hnet hbadx]
    · have hbadx : ({ st with
          nextId := st.nextId + 1
          networks := st.networks ++ [⟨freshId st, networkName, hostInterface, []⟩] } :
            Store).badCidrs.contains v = false := hbad
      rw [addSubnet_created _ uuid (freshId st) v hh1 hnet hbadx]
      exact ⟨_, List.mem_append_right _ (List.mem_singleton_self _), rfl⟩

/-- C10 witness: the literal "None" creates no subnet; the null value
flows into the subnet request as the cidr. -/
theorem addNetwork_cidr_literal_none_witness :
    (addNetwork freePortState "sw" "pcpe" "eth1" (PyStr.str "None")).2.subnets
      = freePortState.subnets ∧
    (∃ sb, sb ∈ (addNetwork freePortState "sw" "vm" "lo" PyStr.null).2.subnets ∧
      sb.cidr = PyStr.null) :=
  ⟨((addNetwork_cidr_literal_none freePortState "sw" "pcpe" "eth1" (PyStr.str "None")
      (by decide)).1 rfl).2,
   ((addNetwork_cidr_literal_none freePortState "sw" "vm" "lo" PyStr.null
      (by decide)).2 (by decide)).2 (by decide)⟩

end Cvbn
